import Mathlib

/-!
# random-number-go: the handler and its three sink adapters

A shallow embedding of `src/main.go`.  Everything the program obtains from outside
(the draw of `rand.Intn`, `config.LoadDefaultConfig`, the tracing middleware and the
three AWS backends) is a field of an environment `Env`; everything the program does to
the outside (backend requests, log lines) is appended to an explicit `World`.
-/

namespace RandomNumberGo

/-! ## Constants and data model (`main.go` lines 22-32) -/

def SqsQueueUrl : String := "https://sqs.us-east-1.amazonaws.com/425362996713/nhulston-go-queue"

def SnsTopicArn : String := "arn:aws:sns:us-east-1:425362996713:nhulston-go-topic"

def EventBridgeBusName : String := "nhulston-go-bus"

/-- The request: `type LambdaInput struct`. -/
structure LambdaInput where
  PublishToSQS : Bool
  PublishToSNS : Bool
  PublishToEB : Bool
  deriving DecidableEq, Repr

/-- A Go `error` value; `Error` is the text of its `Error()` method. -/
structure GoError where
  Error : String
  deriving DecidableEq, Repr

/-- The fields of `sqs.SendMessageInput` that the program sets. -/
structure SendMessageInput where
  QueueUrl : String
  MessageBody : String
  deriving DecidableEq, Repr

/-- The fields of `sns.PublishInput` that the program sets. -/
structure PublishInput where
  TopicArn : String
  Message : String
  deriving DecidableEq, Repr

/-- The fields of `types.PutEventsRequestEntry` that the program sets. -/
structure PutEventsRequestEntry where
  Source : String
  DetailType : String
  Detail : String
  EventBusName : String
  deriving DecidableEq, Repr

/-- The request type `eventbridge.PutEventsInput`. -/
structure PutEventsInput where
  Entries : List PutEventsRequestEntry
  deriving DecidableEq, Repr

/-- One outbound backend call, with the request that was sent. -/
inductive Call where
  | SendMessage (input : SendMessageInput)
  | Publish (input : PublishInput)
  | PutEvents (input : PutEventsInput)
  deriving DecidableEq, Repr

/-- The three sinks, in the order in which the handler visits them. -/
inductive Sink where
  | queue
  | pubsub
  | eventBus
  deriving DecidableEq, Repr

/-- The sink a backend call is addressed to. -/
def Call.sink : Call → Sink
  | .SendMessage _ => .queue
  | .Publish _ => .pubsub
  | .PutEvents _ => .eventBus

/-- The effects of the program on the outside, oldest first. -/
structure World where
  calls : List Call
  logs : List String
  deriving DecidableEq, Repr

/-- The world before anything happened. -/
def World.empty : World := ⟨[], []⟩

/-- Record one backend call. -/
def World.call (w : World) (c : Call) : World := { w with calls := w.calls ++ [c] }

/-- The effect of `log.Printf` / `log.Println` with the formatted line `line`
(the time stamp that the `log` package puts in front is left out). -/
def World.log (w : World) (line : String) : World := { w with logs := w.logs ++ [line] }

/-- What the program gets from outside.  `Cfg` stands for `aws.Config`.
`Intn n` is the value `rand.Intn(n)` yields in this invocation; the three backend fields
give the `error` result of the SDK call for a request (`none` is `nil`). -/
structure Env (Cfg : Type) where
  Intn : Int → Int
  LoadDefaultConfig : Except GoError Cfg
  AppendMiddleware : Cfg → Cfg
  SendMessage : Cfg → SendMessageInput → Option GoError
  Publish : Cfg → PublishInput → Option GoError
  PutEvents : Cfg → PutEventsInput → Option GoError

/-! ## Library functions used by the program

`fmt.Sprintf`, `encoding/json` and the `int` arithmetic belong to Go and its standard
library, not to the repository; they are modelled here after their documented behaviour,
as far as the program uses them. -/

/-- Go `int` is 64 bits wide on the Lambda targets: the value of an `int` expression is its
mathematical value wrapped into `[-2^63, 2^63)`. -/
def wrapInt64 (x : Int) : Int := (x + 2 ^ 63) % 2 ^ 64 - 2 ^ 63

/-- Decimal text of an integer: what `fmt.Sprintf("%d", n)` and `strconv.AppendInt(_, n, 10)`
produce (a minus sign for negative numbers, no leading zeros, no plus sign). -/
def FormatInt (n : Int) : String :=
  match n with
  | Int.ofNat m => String.mk (Nat.toDigits 10 m)
  | Int.negSucc m => String.mk (Char.ofNat 45 :: Nat.toDigits 10 (m + 1))

/-- Lower-case hexadecimal digit, as in the `hex` table of `encoding/json`. -/
def hexDigit (n : Nat) : Char := Nat.digitChar (n % 16)

/-- The `encoding/json` rendering of one character inside a string literal, with HTML
escaping on (the default of `json.Marshal`): quote and backslash get a backslash, the
control characters their short or `u00XX` escape, the characters `<`, `>`, `&` and the
line separators U+2028, U+2029 their `uXXXX` escape; everything else is copied. -/
def jsonEscapeChar (c : Char) : List Char :=
  let bs := Char.ofNat 92
  if c = Char.ofNat 34 then [bs, Char.ofNat 34]
  else if c = bs then [bs, bs]
  else if c = Char.ofNat 8 then [bs, 'b']
  else if c = Char.ofNat 12 then [bs, 'f']
  else if c = Char.ofNat 10 then [bs, 'n']
  else if c = Char.ofNat 13 then [bs, 'r']
  else if c = Char.ofNat 9 then [bs, 't']
  else if c.toNat < 32 ∨ c = '<' ∨ c = '>' ∨ c = '&' then
    [bs, 'u', '0', '0', hexDigit (c.toNat / 16), hexDigit c.toNat]
  else if c.toNat = 8232 then [bs, 'u', '2', '0', '2', '8']
  else if c.toNat = 8233 then [bs, 'u', '2', '0', '2', '9']
  else [c]

/-- The `encoding/json` rendering of a Go string: quoted and escaped. -/
def jsonString (s : String) : String :=
  String.mk (Char.ofNat 34 :: (s.data.flatMap jsonEscapeChar ++ [Char.ofNat 34]))

/-- The Go values handed to `json.Marshal` that the model covers.  A map is given by its
entries, with distinct keys. -/
inductive GoValue where
  | int (n : Int)
  | bool (b : Bool)
  | string (s : String)
  | mapStringInt (entries : List (String × Int))
  | chan
  | func
  deriving DecidableEq, Repr

/-- One `key:value` member of a JSON object. -/
def jsonMember (kv : String × Int) : String := jsonString kv.1 ++ ":" ++ FormatInt kv.2

/-- Model of the standard library function `json.Marshal` on `GoValue`: integers in decimal,
strings quoted and escaped, the members of a map sorted by key and separated by commas;
channels and functions are rejected with `UnsupportedTypeError`. -/
def Marshal : GoValue → Except GoError String
  | .int n => .ok (FormatInt n)
  | .bool b => .ok (if b then "true" else "false")
  | .string s => .ok (jsonString s)
  | .mapStringInt entries =>
      .ok ("\x7b" ++ ",".intercalate
        ((entries.insertionSort (fun a b => a.1 ≤ b.1)).map jsonMember) ++ "\x7d")
  | .chan => .error ⟨"json: unsupported type: chan int"⟩
  | .func => .error ⟨"json: unsupported type: func()"⟩

/-- The first result of `json.Marshal` when the second one is dropped (`detail, _ := ...`)
and the bytes are turned into a string: the encoding, or the empty string (from the nil
slice) when marshalling failed. -/
def marshalIgnoringError (v : GoValue) : String :=
  match Marshal v with
  | .ok bytes => bytes
  | .error _ => ""

/-! ## The adapters (`main.go` lines 71-115) -/

variable {Cfg : Type}

def SendMessageToSqs (env : Env Cfg) (cfg : Cfg) (message : String) (w : World) :
    Option GoError × World :=
  let input : SendMessageInput := { QueueUrl := SqsQueueUrl, MessageBody := message }
  let w := w.call (.SendMessage input)
  match env.SendMessage cfg input with
  | some err => (some err, w)
  | none => (none, w.log "Message sent to SQS")

def PublishToSns (env : Env Cfg) (cfg : Cfg) (message : String) (w : World) :
    Option GoError × World :=
  let input : PublishInput := { TopicArn := SnsTopicArn, Message := message }
  let w := w.call (.Publish input)
  match env.Publish cfg input with
  | some err => (some err, w)
  | none => (none, w.log "Message published to SNS")

def PublishToEventBridge (env : Env Cfg) (cfg : Cfg) (randomNumber : Int) (w : World) :
    Option GoError × World :=
  let detail := marshalIgnoringError (.mapStringInt [("RandomNumber", randomNumber)])
  let input : PutEventsInput :=
    { Entries := [{ Source := "com.nhulston.rnggo"
                    DetailType := "RandomNumber"
                    Detail := detail
                    EventBusName := EventBridgeBusName }] }
  let w := w.call (.PutEvents input)
  match env.PutEvents cfg input with
  | some err => (some err, w)
  | none => (none, w.log "Event published to EventBridge")

/-! ## The handler (`main.go` lines 38-69) -/

/-- The result pair `(int, error)` of the handler together with the world it leaves. -/
structure Outcome where
  value : Int
  err : Option GoError
  world : World
  deriving DecidableEq, Repr

/-- The statement `if err := adapter(...); err != nil { log.Printf(msg + ": %v", err) }`
applied to the adapter's result `r`: a failure is logged and dropped. -/
def logFailure (msg : String) (r : Option GoError × World) : World :=
  match r with
  | (some err, w) => w.log (msg ++ err.Error)
  | (none, w) => w

def FunctionHandler (env : Env Cfg) (input : LambdaInput) (w : World) : Outcome :=
  let randomNumber := wrapInt64 (env.Intn 10 + 1)
  let w := w.log ("Generated random number: " ++ FormatInt randomNumber)
  match env.LoadDefaultConfig with
  | .error err => ⟨0, some err, w.log ("Failed to load AWS config: " ++ err.Error)⟩
  | .ok cfg =>
    let cfg := env.AppendMiddleware cfg
    let w :=
      if input.PublishToSQS then
        logFailure "Failed to send message to SQS: "
          (SendMessageToSqs env cfg (FormatInt randomNumber) w)
      else w
    let w :=
      if input.PublishToSNS then
        logFailure "Failed to publish message to SNS: "
          (PublishToSns env cfg (FormatInt randomNumber) w)
      else w
    let w :=
      if input.PublishToEB then
        logFailure "Failed to publish event to EventBridge: "
          (PublishToEventBridge env cfg randomNumber w)
      else w
    ⟨randomNumber, none, w⟩

/-! ## Reading a payload back -/

/-- The value of a decimal digit. -/
def digitValue (c : Char) : Option Nat :=
  if 48 ≤ c.toNat ∧ c.toNat ≤ 57 then some (c.toNat - 48) else none

/-- Read a run of decimal digits from left to right, `acc` being the value read so far. -/
def parseDigits : List Char → Nat → Option Nat
  | [], acc => some acc
  | c :: cs, acc =>
    match digitValue c with
    | some d => parseDigits cs (acc * 10 + d)
    | none => none

/-- Parse decimal text with an optional sign, in the manner of `strconv.Atoi`
(without its range check). -/
def Atoi (s : String) : Option Int :=
  match s.data with
  | [] => none
  | c :: cs =>
    if c = Char.ofNat 45 then
      if cs = [] then none else (parseDigits cs 0).map (fun v => -(v : Int))
    else if c = Char.ofNat 43 then
      if cs = [] then none else (parseDigits cs 0).map (fun v => (v : Int))
    else (parseDigits (c :: cs) 0).map (fun v => (v : Int))

/-- The opening of the event detail, up to the number. -/
def detailOpening : List Char := "\x7b\"RandomNumber\":".data

/-- Read the integer field back from an event detail of the form written by
`PublishToEventBridge`. -/
def parseDetail (s : String) : Option Int :=
  let cs := s.data
  if cs.take detailOpening.length = detailOpening ∧ cs.getLast? = some (Char.ofNat 125) then
    Atoi (String.mk ((cs.drop detailOpening.length).dropLast))
  else none

/-- The number carried by the payload of a backend call. -/
def Call.payloadValue : Call → Option Int
  | .SendMessage input => Atoi input.MessageBody
  | .Publish input => Atoi input.Message
  | .PutEvents input =>
    match input.Entries with
    | [entry] => parseDetail entry.Detail
    | _ => none

/-- The calls the handler is expected to attempt for a request: the three sinks in their
fixed order, each kept when its flag is set. -/
def selectedSinks (input : LambdaInput) : List Sink :=
  ([(Sink.queue, input.PublishToSQS), (Sink.pubsub, input.PublishToSNS),
    (Sink.eventBus, input.PublishToEB)].filter (fun p => p.2)).map (fun p => p.1)

/-! ## Expected requests -/

/-- The detail text for the number `n`: the JSON object with the one field `RandomNumber`. -/
def detailText (n : Int) : String := "\x7b\"RandomNumber\":" ++ FormatInt n ++ "\x7d"

/-- The request `PublishToEventBridge` sends for the number `n`. -/
def putEventsRequest (n : Int) : PutEventsInput :=
  { Entries := [{ Source := "com.nhulston.rnggo"
                  DetailType := "RandomNumber"
                  Detail := detailText n
                  EventBusName := EventBridgeBusName }] }

/-- The backend calls the handler is expected to make for a request and a number `v`. -/
def expectedCalls (input : LambdaInput) (v : Int) : List Call :=
  (if input.PublishToSQS then [Call.SendMessage ⟨SqsQueueUrl, FormatInt v⟩] else []) ++
  ((if input.PublishToSNS then [Call.Publish ⟨SnsTopicArn, FormatInt v⟩] else []) ++
   (if input.PublishToEB then [Call.PutEvents (putEventsRequest v)] else []))

/-! ## Environments: variations and samples -/

/-- The environment `env` with its three backends replaced. -/
def Env.withBackends {Cfg : Type} (env : Env Cfg)
    (sendMessage : Cfg → SendMessageInput → Option GoError)
    (publish : Cfg → PublishInput → Option GoError)
    (putEvents : Cfg → PutEventsInput → Option GoError) : Env Cfg :=
  { env with SendMessage := sendMessage, Publish := publish, PutEvents := putEvents }

/-- The environment `env` in which `rand.Intn` yields `r`. -/
def Env.withDraw {Cfg : Type} (env : Env Cfg) (r : Int) : Env Cfg :=
  { env with Intn := fun _ => r }

/-- A backend that always fails with the error text `msg`, or always succeeds. -/
def sampleBackend {Req : Type} (fails : Bool) (msg : String) : Unit → Req → Option GoError :=
  fun _ _ => if fails then some ⟨msg⟩ else none

/-- A concrete environment: the draw of `rand.Intn`, whether configuration resolves, and
which of the three backends fail. -/
def sampleEnv (draw : Int) (configOk sqsFails snsFails ebFails : Bool) : Env Unit :=
  { Intn := fun _ => draw
    LoadDefaultConfig := if configOk then .ok () else .error ⟨"no credentials"⟩
    AppendMiddleware := fun c => c
    SendMessage := sampleBackend sqsFails "sqs down"
    Publish := sampleBackend snsFails "sns down"
    PutEvents := sampleBackend ebFails "eventbridge down" }

/-! ## Decimal text: writing and reading back -/

theorem digitValue_digitChar (k : Nat) (hk : k < 10) : digitValue (Nat.digitChar k) = some k := by
  interval_cases k <;> rfl

theorem toDigitsCore_append (fuel : Nat) :
    ∀ (n : Nat) (ds : List Char),
      Nat.toDigitsCore 10 fuel n ds = Nat.toDigitsCore 10 fuel n [] ++ ds := by
  induction fuel with
  | zero => intro n ds; simp [Nat.toDigitsCore]
  | succ fuel ih =>
    intro n ds
    simp only [Nat.toDigitsCore]
    by_cases h : n / 10 = 0
    · simp [h]
    · simp only [h, if_false]
      rw [ih (n / 10) (Nat.digitChar (n % 10) :: ds), ih (n / 10) [Nat.digitChar (n % 10)]]
      simp

theorem toDigitsCore_succ (fuel n : Nat) :
    Nat.toDigitsCore 10 (fuel + 1) n [] =
      (if n / 10 = 0 then [] else Nat.toDigitsCore 10 fuel (n / 10) []) ++
        [Nat.digitChar (n % 10)] := by
  simp only [Nat.toDigitsCore]
  by_cases h : n / 10 = 0
  · simp [h]
  · simp only [h, if_false]
    exact toDigitsCore_append fuel (n / 10) [Nat.digitChar (n % 10)]

theorem toDigits_ne_nil (n : Nat) : Nat.toDigits 10 n ≠ [] := by
  unfold Nat.toDigits
  rw [toDigitsCore_succ]
  simp

theorem parseDigits_append (l₁ l₂ : List Char) :
    ∀ acc, parseDigits (l₁ ++ l₂) acc = (parseDigits l₁ acc).bind (parseDigits l₂) := by
  induction l₁ with
  | nil => intro acc; simp [parseDigits]
  | cons c cs ih =>
    intro acc
    simp only [List.cons_append, parseDigits]
    cases digitValue c with
    | none => simp
    | some d => simpa using ih (acc * 10 + d)

theorem parseDigits_toDigitsCore (fuel : Nat) :
    ∀ n, n < fuel → parseDigits (Nat.toDigitsCore 10 fuel n []) 0 = some n := by
  induction fuel with
  | zero => intro n hn; omega
  | succ fuel ih =>
    intro n hn
    rw [toDigitsCore_succ, parseDigits_append]
    have hd : digitValue (Nat.digitChar (n % 10)) = some (n % 10) :=
      digitValue_digitChar _ (Nat.mod_lt _ (by decide))
    by_cases h : n / 10 = 0
    · have hlt : n % 10 = n := by omega
      rw [hlt] at hd
      simp [h, parseDigits, hd, hlt]
    · have hlt : n / 10 < fuel := by omega
      have hsum : n / 10 * 10 + n % 10 = n := by omega
      simp [h, ih (n / 10) hlt, parseDigits, hd, hsum]

theorem parseDigits_toDigits (n : Nat) : parseDigits (Nat.toDigits 10 n) 0 = some n :=
  parseDigits_toDigitsCore (n + 1) n (Nat.lt_succ_self n)

/-- A text that reads as a run of digits does not start with a sign. -/
theorem head_not_sign (c : Char) (cs : List Char) (v : Nat)
    (h : parseDigits (c :: cs) 0 = some v) : c ≠ Char.ofNat 45 ∧ c ≠ Char.ofNat 43 := by
  constructor <;>
  · intro hc
    subst hc
    simp [parseDigits, digitValue] at h

theorem Atoi_FormatInt (n : Int) : Atoi (FormatInt n) = some n := by
  cases n with
  | ofNat m =>
    have hp := parseDigits_toDigits m
    have hne := toDigits_ne_nil m
    simp only [FormatInt, Atoi]
    cases hds : Nat.toDigits 10 m with
    | nil => exact absurd hds hne
    | cons c cs =>
      rw [hds] at hp
      obtain ⟨h1, h2⟩ := head_not_sign c cs m hp
      simp [h1, h2, hp]
  | negSucc m =>
    have hp := parseDigits_toDigits (m + 1)
    have hne := toDigits_ne_nil (m + 1)
    simp only [FormatInt, Atoi]
    simp [hne, hp, Int.negSucc_eq]

/-! ## The event detail -/

theorem Marshal_randomNumber (n : Int) :
    Marshal (.mapStringInt [("RandomNumber", n)]) = .ok (detailText n) := by
  have hk : jsonString "RandomNumber" = "\"RandomNumber\"" := by decide
  simp only [Marshal, List.insertionSort, List.orderedInsert, List.map, jsonMember, hk,
    String.intercalate, String.intercalate.go, detailText]
  congr 1

theorem detailText_data (n : Int) :
    (detailText n).data = detailOpening ++ ((FormatInt n).data ++ [Char.ofNat 125]) := by
  simp only [detailText, String.data_append, List.append_assoc]
  rfl

theorem parseDetail_detailText (n : Int) : parseDetail (detailText n) = some n := by
  have h1 : (detailOpening ++ ((FormatInt n).data ++ [Char.ofNat 125])).take
      detailOpening.length = detailOpening := List.take_left' rfl
  have h2 : (detailOpening ++ ((FormatInt n).data ++ [Char.ofNat 125])).drop
      detailOpening.length = (FormatInt n).data ++ [Char.ofNat 125] := List.drop_left' rfl
  have h3 : (detailOpening ++ ((FormatInt n).data ++ [Char.ofNat 125])).getLast? =
      some (Char.ofNat 125) := by
    rw [← List.append_assoc, List.getLast?_append]
    rfl
  simp only [parseDetail, detailText_data, h1, h2, h3, List.dropLast_concat, and_self, if_true]
  exact Atoi_FormatInt n

/-! ## What the adapters and the handler do, step by step -/

theorem SendMessageToSqs_eq (env : Env Cfg) (cfg : Cfg) (message : String) (w : World) :
    (SendMessageToSqs env cfg message w).1 = env.SendMessage cfg ⟨SqsQueueUrl, message⟩ ∧
    (SendMessageToSqs env cfg message w).2.calls =
      w.calls ++ [Call.SendMessage ⟨SqsQueueUrl, message⟩] := by
  unfold SendMessageToSqs
  cases h : env.SendMessage cfg ⟨SqsQueueUrl, message⟩ <;> simp [h, World.call, World.log]

theorem PublishToSns_eq (env : Env Cfg) (cfg : Cfg) (message : String) (w : World) :
    (PublishToSns env cfg message w).1 = env.Publish cfg ⟨SnsTopicArn, message⟩ ∧
    (PublishToSns env cfg message w).2.calls =
      w.calls ++ [Call.Publish ⟨SnsTopicArn, message⟩] := by
  unfold PublishToSns
  cases h : env.Publish cfg ⟨SnsTopicArn, message⟩ <;> simp [h, World.call, World.log]

theorem marshalIgnoringError_randomNumber (n : Int) :
    marshalIgnoringError (.mapStringInt [("RandomNumber", n)]) = detailText n := by
  simp [marshalIgnoringError, Marshal_randomNumber]

theorem PublishToEventBridge_eq (env : Env Cfg) (cfg : Cfg) (n : Int) (w : World) :
    (PublishToEventBridge env cfg n w).1 = env.PutEvents cfg (putEventsRequest n) ∧
    (PublishToEventBridge env cfg n w).2.calls =
      w.calls ++ [Call.PutEvents (putEventsRequest n)] := by
  unfold PublishToEventBridge
  simp only [marshalIgnoringError_randomNumber]
  cases h : env.PutEvents cfg (putEventsRequest n) <;>
    simp [putEventsRequest] at h ⊢ <;> simp [h, World.call, World.log, putEventsRequest]

theorem logFailure_calls (msg : String) (r : Option GoError × World) :
    (logFailure msg r).calls = r.2.calls := by
  rcases r with ⟨_ | e, w⟩ <;> rfl

theorem FunctionHandler_ok (env : Env Cfg) (input : LambdaInput) (w : World) (cfg : Cfg)
    (hcfg : env.LoadDefaultConfig = .ok cfg) :
    (FunctionHandler env input w).value = wrapInt64 (env.Intn 10 + 1) ∧
    (FunctionHandler env input w).err = none ∧
    (FunctionHandler env input w).world.calls =
      w.calls ++ expectedCalls input (wrapInt64 (env.Intn 10 + 1)) := by
  rcases input with ⟨a, b, c⟩
  simp only [FunctionHandler, hcfg, expectedCalls, true_and]
  cases a <;> cases b <;> cases c <;>
    simp [logFailure_calls, (SendMessageToSqs_eq _ _ _ _).2, (PublishToSns_eq _ _ _ _).2,
      (PublishToEventBridge_eq _ _ _ _).2, World.log]

theorem FunctionHandler_error (env : Env Cfg) (input : LambdaInput) (w : World) (e : GoError)
    (hcfg : env.LoadDefaultConfig = .error e) :
    FunctionHandler env input w =
      ⟨0, some e, (w.log ("Generated random number: " ++
        FormatInt (wrapInt64 (env.Intn 10 + 1)))).log ("Failed to load AWS config: " ++ e.Error)⟩ := by
  simp [FunctionHandler, hcfg]

theorem wrapInt64_draw (r : Int) (h0 : 0 ≤ r) (h9 : r < 10) : wrapInt64 (r + 1) = r + 1 := by
  unfold wrapInt64
  omega

/-! ## The handler's contract -/

/-- C1: once configuration resolution succeeds, the handler returns the generated number
`rand.Intn(10) + 1` together with a nil error, for every request and whatever the three
backends answer (they are replaced here by arbitrary ones): no adapter failure reaches the
caller or changes the number. -/
theorem FunctionHandler_returns_number_whatever_adapters_do
    (env : Env Cfg) (input : LambdaInput) (w : World) (cfg : Cfg)
    (hcfg : env.LoadDefaultConfig = .ok cfg)
    (sendMessage : Cfg → SendMessageInput → Option GoError)
    (publish : Cfg → PublishInput → Option GoError)
    (putEvents : Cfg → PutEventsInput → Option GoError) :
    (FunctionHandler (env.withBackends sendMessage publish putEvents) input w).value
        = wrapInt64 (env.Intn 10 + 1) ∧
    (FunctionHandler (env.withBackends sendMessage publish putEvents) input w).err = none ∧
    (FunctionHandler (env.withBackends sendMessage publish putEvents) input w).value
        = (FunctionHandler env input w).value := by
  have h := FunctionHandler_ok (env.withBackends sendMessage publish putEvents) input w cfg hcfg
  exact ⟨h.1, h.2.1, h.1.trans (FunctionHandler_ok env input w cfg hcfg).1.symm⟩

/-- Witness of C1: draw 6, all three flags set and all three backends failing; the handler
returns 7 and no error. -/
theorem FunctionHandler_returns_number_whatever_adapters_do_witness :
    (sampleEnv 6 true false false false).LoadDefaultConfig = .ok () ∧
    (FunctionHandler ((sampleEnv 6 true false false false).withBackends
        (sampleBackend true "sqs down") (sampleBackend true "sns down")
        (sampleBackend true "eventbridge down")) ⟨true, true, true⟩ World.empty).value
      = wrapInt64 ((sampleEnv 6 true false false false).Intn 10 + 1) ∧
    (FunctionHandler ((sampleEnv 6 true false false false).withBackends
        (sampleBackend true "sqs down") (sampleBackend true "sns down")
        (sampleBackend true "eventbridge down")) ⟨true, true, true⟩ World.empty).err
      = none ∧
    (FunctionHandler ((sampleEnv 6 true false false false).withBackends
        (sampleBackend true "sqs down") (sampleBackend true "sns down")
        (sampleBackend true "eventbridge down")) ⟨true, true, true⟩ World.empty).value
      = (FunctionHandler (sampleEnv 6 true false false false) ⟨true, true, true⟩
          World.empty).value :=
  ⟨rfl, FunctionHandler_returns_number_whatever_adapters_do (sampleEnv 6 true false false false)
    ⟨true, true, true⟩ World.empty () rfl (sampleBackend true "sqs down")
    (sampleBackend true "sns down") (sampleBackend true "eventbridge down")⟩

/-- C2: when configuration resolution fails with the error `e`, the handler returns `e`
itself (with the integer 0) and makes no backend call: the calls recorded are those that
were there before, and none when starting from the empty world. -/
theorem FunctionHandler_config_failure_returns_error_without_calls
    (env : Env Cfg) (input : LambdaInput) (w : World) (e : GoError)
    (hcfg : env.LoadDefaultConfig = .error e) :
    (FunctionHandler env input w).err = some e ∧
    (FunctionHandler env input w).value = 0 ∧
    (FunctionHandler env input w).world.calls = w.calls ∧
    (FunctionHandler env input World.empty).world.calls = [] := by
  rw [FunctionHandler_error env input w e hcfg, FunctionHandler_error env input World.empty e hcfg]
  exact ⟨rfl, rfl, rfl, rfl⟩

/-- Witness of C2: configuration fails with `no credentials` while all three flags are set. -/
theorem FunctionHandler_config_failure_returns_error_without_calls_witness :
    (sampleEnv 3 false false false false).LoadDefaultConfig = .error ⟨"no credentials"⟩ ∧
    (FunctionHandler (sampleEnv 3 false false false false) ⟨true, true, true⟩ World.empty).err
      = some ⟨"no credentials"⟩ ∧
    (FunctionHandler (sampleEnv 3 false false false false) ⟨true, true, true⟩ World.empty).value
      = 0 ∧
    (FunctionHandler (sampleEnv 3 false false false false) ⟨true, true, true⟩
      World.empty).world.calls = World.empty.calls ∧
    (FunctionHandler (sampleEnv 3 false false false false) ⟨true, true, true⟩
      World.empty).world.calls = [] :=
  ⟨rfl, FunctionHandler_config_failure_returns_error_without_calls
    (sampleEnv 3 false false false false) ⟨true, true, true⟩ World.empty ⟨"no credentials"⟩ rfl⟩

/-- Counterexample to C3 as stated: with the draw 4 (inside `[0,9]`) and a failing
configuration resolution the integer the handler returns is 0, outside `[1,10]`. -/
theorem FunctionHandler_value_out_of_range_on_config_failure :
    (0 ≤ (sampleEnv 4 false false false false).Intn 10 ∧
      (sampleEnv 4 false false false false).Intn 10 < 10) ∧
    (FunctionHandler (sampleEnv 4 false false false false) ⟨false, false, false⟩
      World.empty).value = 0 ∧
    ¬ (1 ≤ (FunctionHandler (sampleEnv 4 false false false false) ⟨false, false, false⟩
          World.empty).value ∧
       (FunctionHandler (sampleEnv 4 false false false false) ⟨false, false, false⟩
          World.empty).value ≤ 10) := by
  have h := FunctionHandler_error (sampleEnv 4 false false false false) ⟨false, false, false⟩
    World.empty ⟨"no credentials"⟩ rfl
  rw [h]
  decide

/-- C3, amended: given that `rand.Intn(10)` yields a value in `[0,9]`, the integer returned
is in `[1,10]` (with a nil error) whenever configuration resolution succeeds, whatever the
backends do; when configuration resolution fails, the integer returned is 0 and comes with
the error. -/
theorem FunctionHandler_value_in_range_when_config_ok
    (env : Env Cfg) (input : LambdaInput) (w : World)
    (h0 : 0 ≤ env.Intn 10) (h9 : env.Intn 10 < 10) :
    (∀ cfg, env.LoadDefaultConfig = .ok cfg →
      1 ≤ (FunctionHandler env input w).value ∧ (FunctionHandler env input w).value ≤ 10 ∧
      (FunctionHandler env input w).err = none) ∧
    (∀ e, env.LoadDefaultConfig = .error e →
      (FunctionHandler env input w).value = 0 ∧ (FunctionHandler env input w).err = some e) := by
  constructor
  · intro cfg hcfg
    have h := FunctionHandler_ok env input w cfg hcfg
    rw [h.1, wrapInt64_draw _ h0 h9]
    exact ⟨by omega, by omega, h.2.1⟩
  · intro e hcfg
    rw [FunctionHandler_error env input w e hcfg]
    exact ⟨rfl, rfl⟩

/-- Witness of the amended C3: draw 9, configuration resolves, the queue backend fails. -/
theorem FunctionHandler_value_in_range_when_config_ok_witness :
    (0 ≤ (sampleEnv 9 true true false false).Intn 10 ∧
      (sampleEnv 9 true true false false).Intn 10 < 10) ∧
    ((∀ cfg, (sampleEnv 9 true true false false).LoadDefaultConfig = .ok cfg →
      1 ≤ (FunctionHandler (sampleEnv 9 true true false false) ⟨true, false, true⟩
            World.empty).value ∧
      (FunctionHandler (sampleEnv 9 true true false false) ⟨true, false, true⟩
            World.empty).value ≤ 10 ∧
      (FunctionHandler (sampleEnv 9 true true false false) ⟨true, false, true⟩
            World.empty).err = none) ∧
    (∀ e, (sampleEnv 9 true true false false).LoadDefaultConfig = .error e →
      (FunctionHandler (sampleEnv 9 true true false false) ⟨true, false, true⟩
            World.empty).value = 0 ∧
      (FunctionHandler (sampleEnv 9 true true false false) ⟨true, false, true⟩
            World.empty).err = some e)) :=
  ⟨⟨by decide, by decide⟩,
    FunctionHandler_value_in_range_when_config_ok (sampleEnv 9 true true false false)
      ⟨true, false, true⟩ World.empty (by decide) (by decide)⟩

/-- C4: with all three flags false and configuration resolution succeeding, the handler
makes no backend call and returns a value in `[1,10]` with a nil error (the draw of
`rand.Intn(10)` being in `[0,9]`). -/
theorem FunctionHandler_all_flags_false
    (env : Env Cfg) (w : World) (cfg : Cfg)
    (hcfg : env.LoadDefaultConfig = .ok cfg)
    (h0 : 0 ≤ env.Intn 10) (h9 : env.Intn 10 < 10) :
    (FunctionHandler env ⟨false, false, false⟩ w).world.calls = w.calls ∧
    (FunctionHandler env ⟨false, false, false⟩ World.empty).world.calls = [] ∧
    1 ≤ (FunctionHandler env ⟨false, false, false⟩ w).value ∧
    (FunctionHandler env ⟨false, false, false⟩ w).value ≤ 10 ∧
    (FunctionHandler env ⟨false, false, false⟩ w).err = none := by
  have h := FunctionHandler_ok env ⟨false, false, false⟩ w cfg hcfg
  have h' := FunctionHandler_ok env ⟨false, false, false⟩ World.empty cfg hcfg
  rw [h.1, h.2.2, h'.2.2, wrapInt64_draw _ h0 h9]
  refine ⟨by simp [expectedCalls], by simp [expectedCalls, World.empty], by omega, by omega, h.2.1⟩

/-- Witness of C4: draw 0, configuration resolves, every backend would fail if called. -/
theorem FunctionHandler_all_flags_false_witness :
    (sampleEnv 0 true true true true).LoadDefaultConfig = .ok () ∧
    (0 ≤ (sampleEnv 0 true true true true).Intn 10 ∧
      (sampleEnv 0 true true true true).Intn 10 < 10) ∧
    (FunctionHandler (sampleEnv 0 true true true true) ⟨false, false, false⟩
      World.empty).world.calls = World.empty.calls ∧
    (FunctionHandler (sampleEnv 0 true true true true) ⟨false, false, false⟩
      World.empty).world.calls = [] ∧
    1 ≤ (FunctionHandler (sampleEnv 0 true true true true) ⟨false, false, false⟩
      World.empty).value ∧
    (FunctionHandler (sampleEnv 0 true true true true) ⟨false, false, false⟩
      World.empty).value ≤ 10 ∧
    (FunctionHandler (sampleEnv 0 true true true true) ⟨false, false, false⟩
      World.empty).err = none :=
  ⟨rfl, ⟨by decide, by decide⟩,
    FunctionHandler_all_flags_false (sampleEnv 0 true true true true) World.empty () rfl
      (by decide) (by decide)⟩

/-- C5: when configuration resolution succeeds, the sinks of the backend calls the handler
adds are exactly the list queue, pub/sub, event bus filtered by the three flags, in that
order, whatever the backends answer; with all three flags set these are exactly the three
calls queue, pub/sub, event bus. -/
theorem FunctionHandler_calls_are_selected_sinks_in_order
    (env : Env Cfg) (input : LambdaInput) (w : World) (cfg : Cfg)
    (hcfg : env.LoadDefaultConfig = .ok cfg) :
    (FunctionHandler env input w).world.calls.map Call.sink
      = w.calls.map Call.sink ++ selectedSinks input ∧
    (FunctionHandler env input World.empty).world.calls.map Call.sink = selectedSinks input ∧
    (FunctionHandler env ⟨true, true, true⟩ World.empty).world.calls.map Call.sink
      = [Sink.queue, Sink.pubsub, Sink.eventBus] := by
  have key : ∀ (i : LambdaInput) (w : World),
      (FunctionHandler env i w).world.calls.map Call.sink
        = w.calls.map Call.sink ++ selectedSinks i := by
    intro i w
    rw [(FunctionHandler_ok env i w cfg hcfg).2.2]
    rcases i with ⟨a, b, c⟩
    cases a <;> cases b <;> cases c <;> simp [expectedCalls, selectedSinks, Call.sink]
  refine ⟨key input w, ?_, ?_⟩
  · simpa [World.empty] using key input World.empty
  · simpa [World.empty, selectedSinks] using key ⟨true, true, true⟩ World.empty

/-- Witness of C5: flags queue and event bus, the queue backend failing. -/
theorem FunctionHandler_calls_are_selected_sinks_in_order_witness :
    (sampleEnv 2 true true false false).LoadDefaultConfig = .ok () ∧
    (FunctionHandler (sampleEnv 2 true true false false) ⟨true, false, true⟩
        World.empty).world.calls.map Call.sink
      = World.empty.calls.map Call.sink ++ selectedSinks ⟨true, false, true⟩ ∧
    (FunctionHandler (sampleEnv 2 true true false false) ⟨true, false, true⟩
        World.empty).world.calls.map Call.sink = selectedSinks ⟨true, false, true⟩ ∧
    (FunctionHandler (sampleEnv 2 true true false false) ⟨true, true, true⟩
        World.empty).world.calls.map Call.sink = [Sink.queue, Sink.pubsub, Sink.eventBus] :=
  ⟨rfl, FunctionHandler_calls_are_selected_sinks_in_order (sampleEnv 2 true true false false)
    ⟨true, false, true⟩ World.empty () rfl⟩

/-! ## Payloads -/

/-- C6: for every integer `n`, `PublishToEventBridge` emits one `PutEvents` request with
exactly one entry, whose detail is the JSON text of the object with the single field
`RandomNumber` set to `n` in decimal (it reads back as `n`), and whose source, detail-type
and bus name are the constants `com.nhulston.rnggo`, `RandomNumber` and
`EventBridgeBusName`; for `n = 7` the detail is exactly the text with the number 7. -/
theorem PublishToEventBridge_emits_one_entry_with_json_detail
    (env : Env Cfg) (cfg : Cfg) (n : Int) (w : World) :
    (PublishToEventBridge env cfg n w).2.calls =
      w.calls ++ [Call.PutEvents ⟨[⟨"com.nhulston.rnggo", "RandomNumber",
        "\x7b\"RandomNumber\":" ++ FormatInt n ++ "\x7d", EventBridgeBusName⟩]⟩] ∧
    parseDetail ("\x7b\"RandomNumber\":" ++ FormatInt n ++ "\x7d") = some n ∧
    (PublishToEventBridge env cfg 7 w).2.calls =
      w.calls ++ [Call.PutEvents ⟨[⟨"com.nhulston.rnggo", "RandomNumber",
        "\x7b\"RandomNumber\":7\x7d", EventBridgeBusName⟩]⟩] :=
  ⟨(PublishToEventBridge_eq env cfg n w).2, parseDetail_detailText n,
    (PublishToEventBridge_eq env cfg 7 w).2⟩

/-- C7: when configuration resolution succeeds, every payload the handler sends carries the
number it returns: the backend calls added are those of `SendMessageToSqs` and
`PublishToSns` applied to the decimal text of the returned number and of
`PublishToEventBridge` applied to the returned number itself (each when its flag is set);
the queue body and the topic message are that decimal text; and parsing the payload of any
added call gives back the returned number. -/
theorem FunctionHandler_payloads_carry_returned_number
    (env : Env Cfg) (input : LambdaInput) (w : World) (cfg : Cfg)
    (hcfg : env.LoadDefaultConfig = .ok cfg) :
    (FunctionHandler env input w).world.calls = w.calls ++
      ((if input.PublishToSQS then
          (SendMessageToSqs env (env.AppendMiddleware cfg)
            (FormatInt (FunctionHandler env input w).value) World.empty).2.calls else []) ++
       ((if input.PublishToSNS then
          (PublishToSns env (env.AppendMiddleware cfg)
            (FormatInt (FunctionHandler env input w).value) World.empty).2.calls else []) ++
        (if input.PublishToEB then
          (PublishToEventBridge env (env.AppendMiddleware cfg)
            (FunctionHandler env input w).value World.empty).2.calls else []))) ∧
    (∀ c ∈ (FunctionHandler env input w).world.calls.drop w.calls.length,
      (∀ req, c = Call.SendMessage req →
        req.MessageBody = FormatInt (FunctionHandler env input w).value) ∧
      (∀ req, c = Call.Publish req →
        req.Message = FormatInt (FunctionHandler env input w).value) ∧
      c.payloadValue = some (FunctionHandler env input w).value) := by
  have h := FunctionHandler_ok env input w cfg hcfg
  rw [h.2.2, h.1]
  constructor
  · simp [expectedCalls, (SendMessageToSqs_eq _ _ _ _).2, (PublishToSns_eq _ _ _ _).2,
      (PublishToEventBridge_eq _ _ _ _).2, World.empty]
  · intro c hc
    rw [List.drop_left] at hc
    simp only [expectedCalls, List.mem_append] at hc
    rcases hc with hc | hc | hc <;> split at hc <;> simp at hc <;> subst hc
    · simp [Call.payloadValue, Atoi_FormatInt]
    · simp [Call.payloadValue, Atoi_FormatInt]
    · simp [Call.payloadValue, putEventsRequest, parseDetail_detailText]

/-- Witness of C7: draw 6, all three flags set, the pub/sub backend failing. -/
theorem FunctionHandler_payloads_carry_returned_number_witness :
    (sampleEnv 6 true false true false).LoadDefaultConfig = .ok () ∧
    (FunctionHandler (sampleEnv 6 true false true false) ⟨true, true, true⟩
        World.empty).world.calls =
      [Call.SendMessage ⟨SqsQueueUrl, "7"⟩, Call.Publish ⟨SnsTopicArn, "7"⟩,
       Call.PutEvents ⟨[⟨"com.nhulston.rnggo", "RandomNumber", "\x7b\"RandomNumber\":7\x7d",
         EventBridgeBusName⟩]⟩] ∧
    (∀ c ∈ (FunctionHandler (sampleEnv 6 true false true false) ⟨true, true, true⟩
        World.empty).world.calls.drop World.empty.calls.length,
      (∀ req, c = Call.SendMessage req →
        req.MessageBody = FormatInt (FunctionHandler (sampleEnv 6 true false true false)
          ⟨true, true, true⟩ World.empty).value) ∧
      (∀ req, c = Call.Publish req →
        req.Message = FormatInt (FunctionHandler (sampleEnv 6 true false true false)
          ⟨true, true, true⟩ World.empty).value) ∧
      c.payloadValue = some (FunctionHandler (sampleEnv 6 true false true false)
          ⟨true, true, true⟩ World.empty).value) :=
  ⟨rfl,
    (FunctionHandler_payloads_carry_returned_number (sampleEnv 6 true false true false)
      ⟨true, true, true⟩ World.empty () rfl).1.trans (by decide),
    (FunctionHandler_payloads_carry_returned_number (sampleEnv 6 true false true false)
      ⟨true, true, true⟩ World.empty () rfl).2⟩

/-- C8: the value the handler returns, as a function of the draw of `rand.Intn(10)`, is a
bijection from the ten draws `0..9` onto the values `1..10`, and every value in `1..10` is
returned for exactly one of the ten draws (so it has probability 1/10 when the draw is
uniform). -/
theorem FunctionHandler_value_bijective_in_draw
    (env : Env Cfg) (input : LambdaInput) (w : World) (cfg : Cfg)
    (hcfg : env.LoadDefaultConfig = .ok cfg) :
    Set.BijOn (fun r : Int => (FunctionHandler (env.withDraw r) input w).value)
      (Set.Ico 0 10) (Set.Icc 1 10) ∧
    (Finset.Ico (0 : Int) 10).card = 10 ∧
    ∀ v : Int, 1 ≤ v → v ≤ 10 →
      ((Finset.Ico (0 : Int) 10).filter
        (fun r => (FunctionHandler (env.withDraw r) input w).value = v)).card = 1 := by
  have hval : ∀ r : Int, (FunctionHandler (env.withDraw r) input w).value = wrapInt64 (r + 1) :=
    fun r => (FunctionHandler_ok (env.withDraw r) input w cfg hcfg).1
  simp only [hval]
  refine ⟨⟨?_, ?_, ?_⟩, by simp, ?_⟩
  · intro r hr
    simp only [Set.mem_Ico] at hr
    simp only [Set.mem_Icc, wrapInt64_draw r hr.1 hr.2]
    omega
  · intro a ha b hb hab
    simp only [Set.mem_Ico] at ha hb
    simp only [wrapInt64_draw a ha.1 ha.2, wrapInt64_draw b hb.1 hb.2] at hab
    omega
  · intro v hv
    simp only [Set.mem_Icc] at hv
    refine ⟨v - 1, ?_, ?_⟩
    · simp only [Set.mem_Ico]; omega
    · simp only
      rw [wrapInt64_draw (v - 1) (by omega) (by omega)]
      omega
  · intro v h1 h10
    rw [Finset.card_eq_one]
    refine ⟨v - 1, ?_⟩
    ext r
    simp only [Finset.mem_filter, Finset.mem_Ico, Finset.mem_singleton]
    constructor
    · rintro ⟨⟨h0, h9⟩, hr⟩
      rw [wrapInt64_draw r h0 h9] at hr
      omega
    · intro hr
      subst hr
      refine ⟨⟨by omega, by omega⟩, ?_⟩
      rw [wrapInt64_draw (v - 1) (by omega) (by omega)]
      omega

/-- Witness of C8: an environment whose configuration resolves, all flags set. -/
theorem FunctionHandler_value_bijective_in_draw_witness :
    (sampleEnv 0 true false false true).LoadDefaultConfig = .ok () ∧
    (Set.BijOn (fun r : Int => (FunctionHandler ((sampleEnv 0 true false false true).withDraw r)
        ⟨true, true, true⟩ World.empty).value) (Set.Ico 0 10) (Set.Icc 1 10) ∧
    (Finset.Ico (0 : Int) 10).card = 10 ∧
    ∀ v : Int, 1 ≤ v → v ≤ 10 →
      ((Finset.Ico (0 : Int) 10).filter
        (fun r => (FunctionHandler ((sampleEnv 0 true false false true).withDraw r)
          ⟨true, true, true⟩ World.empty).value = v)).card = 1) :=
  ⟨rfl, FunctionHandler_value_bijective_in_draw (sampleEnv 0 true false false true)
    ⟨true, true, true⟩ World.empty () rfl⟩

/-! ## The adapters' contract -/

/-- C9: each adapter adds exactly one backend call, addressed to its fixed endpoint
(`SqsQueueUrl`, `SnsTopicArn`, `EventBridgeBusName`), and its result is the `error` result
of that backend call, unchanged: an error exactly when the backend gave one, nil otherwise. -/
theorem adapters_call_once_and_pass_backend_error_through
    (env : Env Cfg) (cfg : Cfg) (message : String) (n : Int) (w : World) :
    ((SendMessageToSqs env cfg message w).2.calls =
        w.calls ++ [Call.SendMessage ⟨SqsQueueUrl, message⟩] ∧
      (SendMessageToSqs env cfg message w).1 = env.SendMessage cfg ⟨SqsQueueUrl, message⟩) ∧
    ((PublishToSns env cfg message w).2.calls =
        w.calls ++ [Call.Publish ⟨SnsTopicArn, message⟩] ∧
      (PublishToSns env cfg message w).1 = env.Publish cfg ⟨SnsTopicArn, message⟩) ∧
    ((PublishToEventBridge env cfg n w).2.calls =
        w.calls ++ [Call.PutEvents ⟨[⟨"com.nhulston.rnggo", "RandomNumber",
          marshalIgnoringError (.mapStringInt [("RandomNumber", n)]), EventBridgeBusName⟩]⟩] ∧
      (PublishToEventBridge env cfg n w).1 =
        env.PutEvents cfg ⟨[⟨"com.nhulston.rnggo", "RandomNumber",
          marshalIgnoringError (.mapStringInt [("RandomNumber", n)]), EventBridgeBusName⟩]⟩) := by
  rw [marshalIgnoringError_randomNumber]
  exact ⟨⟨(SendMessageToSqs_eq env cfg message w).2, (SendMessageToSqs_eq env cfg message w).1⟩,
    ⟨(PublishToSns_eq env cfg message w).2, (PublishToSns_eq env cfg message w).1⟩,
    ⟨(PublishToEventBridge_eq env cfg n w).2, (PublishToEventBridge_eq env cfg n w).1⟩⟩

/-- C10: for every integer `n`, marshalling the map with the single key `RandomNumber` and
value `n` succeeds (the error that `PublishToEventBridge` drops is nil), so the detail sent
is the complete JSON text, never empty. -/
theorem Marshal_of_randomNumber_map_never_fails (n : Int) :
    Marshal (.mapStringInt [("RandomNumber", n)]) =
      .ok ("\x7b\"RandomNumber\":" ++ FormatInt n ++ "\x7d") ∧
    marshalIgnoringError (.mapStringInt [("RandomNumber", n)]) =
      "\x7b\"RandomNumber\":" ++ FormatInt n ++ "\x7d" ∧
    marshalIgnoringError (.mapStringInt [("RandomNumber", n)]) ≠ "" := by
  refine ⟨Marshal_randomNumber n, marshalIgnoringError_randomNumber n, ?_⟩
  rw [marshalIgnoringError_randomNumber]
  intro h
  have hd := detailText_data n
  rw [h] at hd
  simp [detailOpening] at hd

end RandomNumberGo
